import Mathlib

set_option maxRecDepth 100000

/-!
# Verification of the Siams grading & academic report engine

Shallow embedding of the grading core of the school-administration backend:

* `src/v2/backend/utils/student_report.py` — `generate_student_report` with its
  inner helpers `grade_point`, `get_letter_grade`, `get_remarks`, the per-year
  aggregation loop and the GPA computations;
* `src/v2/backend/services/grade_services.py` — `upload_grade`;
* `src/v2/backend/services/school_services.py` — `update_school_grading_system`;
* `src/v2/services/school_services.py` — `update_grading_system`.

Python numbers are modelled as `ℚ`, SQLAlchemy rows as structures, the
database session as explicit lists of rows, timestamps as `ℕ`, and a raised
exception as `Except.error`.  The JSON `grading_system` column is modelled by
its parse result (`GSField`).
-/

set_option autoImplicit false

namespace Siams

/-- One parsed rule of a school's `grading_system` JSON list:
`{"grade": ..., "min": ..., "max": ..., "points": ..., "remarks": ...}`
with `points` and `remarks` optional. -/
structure Rule where
  grade : String
  min : ℚ
  max : ℚ
  points : Option ℚ := none
  remarks : Option String := none
  deriving Repr, DecidableEq

/-- The fixed fallback table of `grade_point`
(`student_report.py`, the `points` dict). -/
def standardPointsTable : List (String × ℚ) :=
  [("A+", 4), ("A", 4), ("A-", 37/10),
   ("B+", 33/10), ("B", 3), ("B-", 27/10),
   ("C+", 23/10), ("C", 2), ("C-", 17/10),
   ("D+", 13/10), ("D", 1), ("D-", 7/10),
   ("E", 1/2), ("F", 0)]

/-- `points.get(letter, 0.0)` on the fallback table. -/
def standardPoints (letter : String) : ℚ :=
  (((standardPointsTable.find? (fun p => p.1 == letter))).map Prod.snd).getD 0

/-- The `for rule in grading_system` loop of `grade_point`: the first rule whose
`grade` equals the letter yields `float(rule.get("points", 0.0))`. -/
def gradePointLoop (gs : List Rule) (letter : String) : Option ℚ :=
  match gs with
  | [] => none
  | r :: rest => if r.grade == letter then some (r.points.getD 0) else gradePointLoop rest letter

/-- `grade_point(letter)` from `student_report.py`: when the grading system is
non-empty and contains a rule for the letter, use that rule's `points`
(defaulting to `0.0` when the key is absent); otherwise fall back to the
standard table. -/
def grade_point (gs : List Rule) (letter : String) : ℚ :=
  match (if gs.isEmpty then none else gradePointLoop gs letter) with
  | some p => p
  | none => standardPoints letter

/-- The `for rule in grading_system` loop of `get_letter_grade`: first rule with
`rule["min"] <= value <= rule["max"]` wins. -/
def letterLoop (gs : List Rule) (v : ℚ) : Option String :=
  match gs with
  | [] => none
  | r :: rest => if r.min ≤ v ∧ v ≤ r.max then some r.grade else letterLoop rest v

/-- `get_letter_grade(value)` from `student_report.py`: `None` when the value is
`None` or the grading system is empty, else the first matching rule's grade,
else `None`. -/
def get_letter_grade (gs : List Rule) (value : Option ℚ) : Option String :=
  match value with
  | none => none
  | some v => if gs.isEmpty then none else letterLoop gs v

/-- The fixed fallback table of `get_remarks` (`remarks_map`). -/
def standardRemarksTable : List (String × String) :=
  [("A+", "Excellent"), ("A", "Excellent"), ("A-", "Excellent"),
   ("B+", "Very Good"), ("B", "Very Good"), ("B-", "Good"),
   ("C+", "Good"), ("C", "Good"), ("C-", "Satisfactory"),
   ("D+", "Pass"), ("D", "Pass"), ("D-", "Pass"),
   ("E", "Marginal Pass"), ("F", "Fail")]

/-- `remarks_map.get(letter, "")`; a `None` letter hits no key. -/
def standardRemarks (letter : Option String) : String :=
  match letter with
  | none => ""
  | some l => (((standardRemarksTable.find? (fun p => p.1 == l))).map Prod.snd).getD ""

/-- Python truthiness of an optional string (`None` and `""` are falsy). -/
def strTruthy : Option String → Bool
  | none => false
  | some s => s != ""

/-- The `for rule in grading_system` loop of `get_remarks`: first rule whose
`grade` equals the letter and whose `remarks` value is truthy. -/
def remarksLoop (gs : List Rule) (letter : Option String) : Option String :=
  match gs with
  | [] => none
  | r :: rest =>
    if (some r.grade == letter) ∧ strTruthy r.remarks then r.remarks
    else remarksLoop rest letter

/-- `get_remarks(letter)` from `student_report.py`. -/
def get_remarks (gs : List Rule) (letter : Option String) : String :=
  match remarksLoop gs letter with
  | some s => s
  | none => standardRemarks letter

/-- Python's `round(x, 2)` modelled on `ℚ` (two-decimal rounding). -/
def round2 (q : ℚ) : ℚ := ((Rat.floor (q * 100 + 1/2) : ℤ) : ℚ) / 100

/-- Modelled from the spec: the system default grading scale
(`DEFAULT_GRADING_SYSTEM`, imported by `services/accounts.py` from a
`config` module that is not part of the source tree).  The spec describes it
as A for scores at least 80, B at least 70, C at least 60, D at least 50,
F below 50, non-overlapping and covering [0, 100]. -/
def default_scale_spec : List Rule :=
  [{ grade := "A", min := 80, max := 100 },
   { grade := "B", min := 70, max := 80 - 1/1000000 },
   { grade := "C", min := 60, max := 70 - 1/1000000 },
   { grade := "D", min := 50, max := 60 - 1/1000000 },
   { grade := "F", min := 0, max := 50 - 1/1000000 }]

example : get_letter_grade default_scale_spec (some 85) = some "A" := by decide
example : get_letter_grade [] (some 85) = none := by decide
example : grade_point [] "B" = 3 := by decide
example : grade_point [{ grade := "B", min := 70, max := 79 }] "B" = 0 := by decide
example : grade_point [{ grade := "B", min := 70, max := 79, points := some 5 }] "B" = 5 := by decide
example : round2 (7/3) = 233/100 := by with_unfolding_all decide

/-! ## Database rows (`src/v2/models/*.py`) -/

/-- `models/user.py` `UserRole`. -/
inductive UserRole where
  | student
  | staff
  | admin
  deriving Repr, DecidableEq

/-- `models/user.py` `User` (the columns the grading engine reads;
`gender` is kept as the string `str(student.gender)` produces). -/
structure User where
  id : Nat
  username : String
  full_name : String
  email : String
  gender : String
  role : UserRole
  deriving Repr, DecidableEq

/-- The parse status of the `grading_system` text column of `models/school.py`:
an empty / NULL string, a string `json.loads` rejects, or a parsed rule list. -/
inductive GSField where
  | empty
  | malformed
  | parsed (rules : List Rule)
  deriving Repr, DecidableEq

/-- `models/school.py` `School` (the columns the grading engine reads). -/
structure School where
  id : Nat
  grading_system : GSField
  deriving Repr, DecidableEq

/-- `models/classes.py` `Class`. -/
structure Class where
  id : Nat
  name : String
  description : String
  academic_year : String
  school_id : Nat
  deriving Repr, DecidableEq

/-- `models/course.py` `Course`. -/
structure Course where
  id : Nat
  title : String
  code : String
  credit_hours : Nat
  class_id : Nat
  teacher_id : Nat
  deriving Repr, DecidableEq

/-- `models/enrollment.py` `Enrollment` (`enrolled_at` as an abstract tick). -/
structure Enrollment where
  id : Nat
  student_id : Nat
  class_id : Nat
  enrolled_at : Nat
  deriving Repr, DecidableEq

/-- `models/grade.py` `Grade`; `created_at` / `updated_at` as abstract ticks. -/
structure Grade where
  id : Nat
  student_id : Nat
  course_id : Nat
  value : ℚ
  created_at : Nat
  updated_at : Nat
  graded_by : Nat
  deriving Repr, DecidableEq

/-- The SQLAlchemy session's visible state: the row lists, plus the
autoincrement counter for the `grades` table. -/
structure DB where
  users : List User
  schools : List School
  classes : List Class
  enrollments : List Enrollment
  courses : List Course
  grades : List Grade
  next_grade_id : Nat
  deriving Repr, DecidableEq

def findUser (db : DB) (uid : Nat) : Option User :=
  db.users.find? (fun u => u.id == uid)

def findClass (db : DB) (cid : Nat) : Option Class :=
  db.classes.find? (fun c => c.id == cid)

def findSchool (db : DB) (sid : Nat) : Option School :=
  db.schools.find? (fun s => s.id == sid)

def classCourses (db : DB) (cid : Nat) : List Course :=
  db.courses.filter (fun c => c.class_id == cid)

def findGrade (db : DB) (sid cid : Nat) : Option Grade :=
  db.grades.find? (fun g => g.student_id == sid && g.course_id == cid)

/-! ## JSON-ish values for the report dictionaries -/

/-- The Python dict/list/number/string values the report is assembled from. -/
inductive RVal where
  | nullv
  | num (q : ℚ)
  | str (s : String)
  | arr (l : List RVal)
  | obj (fields : List (String × RVal))

def optNum : Option ℚ → RVal
  | none => RVal.nullv
  | some q => RVal.num q

def optStr : Option String → RVal
  | none => RVal.nullv
  | some s => RVal.str s

/-! ## `generate_student_report` (`src/v2/backend/utils/student_report.py`) -/

/-- Lines 60–67: `school.grading_system` is loaded with `json.loads`, any
failure (or a falsy school / column) yielding the empty list. -/
def load_grading_system (school : Option School) : List Rule :=
  match school with
  | none => []
  | some sch =>
    match sch.grading_system with
    | GSField.empty => []
    | GSField.malformed => []
    | GSField.parsed rules => rules

/-- One entry of `year_reports[yr]["courses"]`. -/
def courseEntry (course : Course) (grade : Option Grade) (value : Option ℚ)
    (letter : Option String) (remarks : String) (points : ℚ) : RVal :=
  RVal.obj
    [("id", RVal.num course.id),
     ("title", RVal.str course.title),
     ("code", RVal.str course.code),
     ("credit_hours", RVal.num course.credit_hours),
     ("grade_value", optNum value),
     ("grade_id", match grade with | some g => RVal.num g.id | none => RVal.nullv),
     ("graded_at", match grade with | some g => RVal.str (toString g.created_at) | none => RVal.nullv),
     ("letter_grade", optStr letter),
     ("remarks", RVal.str remarks),
     ("grade_points", RVal.num points)]

/-- The per-year accumulator `{"courses": [...], "total_points": ..., "total_credits": ...}`. -/
structure YR where
  courses : List RVal
  total_points : ℚ
  total_credits : Nat

/-- The body of the inner `for course in class_courses` loop of the per-year
reporting section: appends the course entry and, when the letter grade and the
credit hours are truthy, adds the weighted points and the credits to both the
year totals and the accumulated totals. -/
def processCourse (gs : List Rule) (db : DB) (student_id : Nat)
    (acc : YR × ℚ × Nat) (course : Course) : YR × ℚ × Nat :=
  let yr := acc.1
  let ap := acc.2.1
  let ac := acc.2.2
  let grade := findGrade db student_id course.id
  let value : Option ℚ := grade.map (fun g => g.value)
  let letter := get_letter_grade gs value
  let remarks := get_remarks gs letter
  let points : ℚ :=
    if strTruthy letter then grade_point gs (letter.getD "") * (course.credit_hours : ℚ) else 0
  let entry := courseEntry course grade value letter remarks points
  let yr1 : YR := { yr with courses := yr.courses ++ [entry] }
  if strTruthy letter && (course.credit_hours != 0) then
    ({ yr1 with
        total_points := yr1.total_points + points,
        total_credits := yr1.total_credits + course.credit_hours },
     ap + points, ac + course.credit_hours)
  else
    (yr1, ap, ac)

def lookupYR (yrs : List (String × YR)) (k : String) : Option YR :=
  (yrs.find? (fun p => p.1 == k)).map Prod.snd

/-- In-place update of the dict entry for an existing key. -/
def setYR (k : String) (v : YR) : List (String × YR) → List (String × YR)
  | [] => []
  | p :: t => if p.1 == k then (k, v) :: t else p :: setYR k v t

/-- The body of the outer `for enr in all_enrollments` loop: resolve the
enrollment's class (`.first().academic_year` raises on a missing class),
initialise the year entry when absent, then fold the class's courses. -/
def processEnrollment (db : DB) (gs : List Rule) (student_id : Nat)
    (st : List (String × YR) × ℚ × Nat) (enr : Enrollment) :
    Except String (List (String × YR) × ℚ × Nat) :=
  match findClass db enr.class_id with
  | none => Except.error "AttributeError: NoneType has no attribute academic_year"
  | some cls =>
    let yrKey := cls.academic_year
    let yrs0 := if (lookupYR st.1 yrKey).isSome then st.1 else st.1 ++ [(yrKey, ⟨[], 0, 0⟩)]
    let current := (lookupYR yrs0 yrKey).getD ⟨[], 0, 0⟩
    let res := (classCourses db enr.class_id).foldl (processCourse gs db student_id) (current, st.2.1, st.2.2)
    Except.ok (setYR yrKey res.1 yrs0, res.2.1, res.2.2)

/-- The key the `order_by(Class.academic_year)` join sorts an enrollment by. -/
def enrollmentYear (db : DB) (e : Enrollment) : String :=
  ((findClass db e.class_id).map (fun c => c.academic_year)).getD ""

/-- `db.query(Enrollment).filter_by(student_id=...).join(Class).order_by(Class.academic_year).all()`:
the inner join drops enrollments without a class row. -/
def all_enrollments (db : DB) (student_id : Nat) : List Enrollment :=
  ((db.enrollments.filter (fun e => e.student_id == student_id)).filter
      (fun e => (findClass db e.class_id).isSome)).mergeSort
      (fun a b => enrollmentYear db a ≤ enrollmentYear db b)

/-- The whole per-year reporting loop: returns `year_reports`,
`accumulated_points` and `accumulated_credits`. -/
def buildYearReports (db : DB) (gs : List Rule) (student_id : Nat) :
    Except String (List (String × YR) × ℚ × Nat) :=
  (all_enrollments db student_id).foldlM (processEnrollment db gs student_id) ([], 0, 0)

/-- `round(total_points / total_credits, 2)` guarded by `total_credits > 0`,
else the GPA stays `None`. -/
def gpaOf (y : YR) : Option ℚ :=
  if 0 < y.total_credits then some (round2 (y.total_points / (y.total_credits : ℚ))) else none

/-- `sorted(year_reports.keys())[-1]`: the lexicographically greatest key. -/
def maxKey : List String → Option String
  | [] => none
  | k :: t =>
    match maxKey t with
    | none => some k
    | some m => some (if k ≤ m then m else k)

/-- Lines 148–161: pick the requested academic year when truthy and present,
else the latest year; produce its course reports and its (possibly null) GPA. -/
def selectReport (yrs : List (String × YR)) (academic_year : Option String) :
    List RVal × Option ℚ :=
  let requested : Option YR :=
    match academic_year with
    | some a => if a != "" then lookupYR yrs a else none
    | none => none
  match requested with
  | some y => (y.courses, gpaOf y)
  | none =>
    match maxKey (yrs.map Prod.fst) with
    | some k =>
      match lookupYR yrs k with
      | some y => (y.courses, gpaOf y)
      | none => ([], none)
    | none => ([], none)

/-- `accumulated_gpa = round(accumulated_points / accumulated_credits, 2) if
accumulated_credits > 0 else None`. -/
def accumulatedGpa (ap : ℚ) (ac : Nat) : Option ℚ :=
  if 0 < ac then some (round2 (ap / (ac : ℚ))) else none

def studentObj (u : User) : RVal :=
  RVal.obj
    [("id", RVal.num u.id), ("username", RVal.str u.username),
     ("full_name", RVal.str u.full_name), ("email", RVal.str u.email),
     ("gender", RVal.str u.gender)]

def classObj (c : Class) : RVal :=
  RVal.obj
    [("id", RVal.num c.id), ("name", RVal.str c.name),
     ("description", RVal.str c.description)]

def yrObj (yrs : List (String × YR)) : RVal :=
  RVal.obj (yrs.map (fun p =>
    (p.1, RVal.obj
      [("courses", RVal.arr p.2.courses),
       ("total_points", RVal.num p.2.total_points),
       ("total_credits", RVal.num p.2.total_credits)])))

/-- `academic_year or 'latest'` in the not-found message. -/
def ayOrLatest : Option String → String
  | none => "latest"
  | some a => if a != "" then a else "latest"

/-- Lines 36–44: the enrollment query — filter by student, join on the class's
academic year when the argument is truthy, order by `enrolled_at` descending,
take the first (the earliest listed row among those with maximal tick). -/
def pickLatest : List Enrollment → Option Enrollment
  | [] => none
  | e :: t =>
    match pickLatest t with
    | none => some e
    | some m => some (if m.enrolled_at ≤ e.enrolled_at then e else m)

def latestEnrollment (db : DB) (student_id : Nat) (academic_year : Option String) :
    Option Enrollment :=
  let base := db.enrollments.filter (fun e => e.student_id == student_id)
  let filtered :=
    if strTruthy academic_year then
      base.filter (fun e =>
        match findClass db e.class_id with
        | some c => c.academic_year == (academic_year.getD "")
        | none => false)
    else base
  pickLatest filtered

/-- `generate_student_report(student_id, academic_year)` from
`src/v2/backend/utils/student_report.py`.  A raised `ValueError` (or attribute
error) is modelled as `Except.error` with the exception's message.  The
function assembles the full report dict — including `gpa`, `accumulated_gpa`
and `yearly_reports` — and then immediately rebinds `report` to a second dict
without those keys, which is what it returns. -/
def generate_student_report (db : DB) (student_id : Nat) (academic_year : Option String) :
    Except String RVal := do
  let student ←
    match findUser db student_id with
    | some u => Except.ok u
    | none => Except.error ("Student with id " ++ toString student_id ++ " not found.")
  let enrollment ←
    match latestEnrollment db student_id academic_year with
    | some e => Except.ok e
    | none =>
      Except.error ("No enrollment found for student " ++ toString student_id ++
        " in year '" ++ ayOrLatest academic_year ++ "'.")
  let class_ ←
    match findClass db enrollment.class_id with
    | some c => Except.ok c
    | none => Except.error ("Class with id " ++ toString enrollment.class_id ++ " not found.")
  let school := findSchool db class_.school_id
  let grading_system := load_grading_system school
  let (year_reports, accumulated_points, accumulated_credits) ←
    buildYearReports db grading_system student_id
  let (course_reports, gpa) := selectReport year_reports academic_year
  let accumulated_gpa := accumulatedGpa accumulated_points accumulated_credits
  let report := RVal.obj
    [("student", studentObj student),
     ("academic_year", RVal.str class_.academic_year),
     ("class", classObj class_),
     ("courses", RVal.arr course_reports),
     ("gpa", optNum gpa),
     ("accumulated_gpa", optNum accumulated_gpa),
     ("yearly_reports", yrObj year_reports)]
  let report := RVal.obj
    [("student", studentObj student),
     ("academic_year", RVal.str class_.academic_year),
     ("class", classObj class_),
     ("courses", RVal.arr course_reports)]
  return report

/-- The top-level keys of a successfully returned report. -/
def reportKeys : Except String RVal → List String
  | Except.ok (RVal.obj fields) => fields.map Prod.fst
  | _ => []

/-! ## `upload_grade` (`src/v2/backend/services/grade_services.py`) -/

/-- The `(success, message, data)` triple `upload_grade` returns; the `data`
dict's fields are exactly the refreshed `Grade` row's columns, so it is kept
as the row itself. -/
structure UploadResult where
  ok : Bool
  message : String
  payload : Option Grade
  deriving Repr, DecidableEq

/-- `upload_grade(student_id, course_id, value, graded_by)`:
validates the grader (a staff user), the student (a student user) and the
course (assigned to this grader); then updates the existing grade row for
`(student_id, course_id)` in place, or inserts a fresh row.  `now` is the
commit tick: the ORM's `onupdate`/`default` set `updated_at` (and, on insert,
`created_at`) to it. -/
def upload_grade (db : DB) (student_id course_id : Nat) (value : ℚ) (graded_by : Nat)
    (now : Nat) : UploadResult × DB :=
  match db.users.find? (fun u => u.id == graded_by && u.role == UserRole.staff) with
  | none => (⟨false, "Grader is not a valid teacher", none⟩, db)
  | some _ =>
    match db.users.find? (fun u => u.id == student_id && u.role == UserRole.student) with
    | none => (⟨false, "Student not found", none⟩, db)
    | some _ =>
      match db.courses.find? (fun c => c.id == course_id && c.teacher_id == graded_by) with
      | none => (⟨false, "Course not found or not assigned to this teacher", none⟩, db)
      | some _ =>
        match findGrade db student_id course_id with
        | some g =>
          let g2 := { g with value := value, updated_at := now }
          (⟨true, "Grade uploaded successfully", some g2⟩,
           { db with grades := db.grades.map (fun x => if x.id == g.id then g2 else x) })
        | none =>
          let g : Grade :=
            { id := db.next_grade_id, student_id := student_id, course_id := course_id,
              value := value, created_at := now, updated_at := now, graded_by := graded_by }
          (⟨true, "Grade uploaded successfully", some g⟩,
           { db with grades := db.grades ++ [g], next_grade_id := db.next_grade_id + 1 })

/-! ## Grading-scale updates
(`src/v2/backend/services/school_services.py` and `src/v2/services/school_services.py`) -/

/-- A JSON value sitting under the `min` / `max` key of a submitted rule:
either a number (`int`/`float`) or something non-numeric. -/
inductive JNum where
  | num (q : ℚ)
  | nonnum (s : String)
  deriving Repr, DecidableEq

/-- One element of a submitted grading-system list: either not a dict at all,
or a dict whose `grade` / `min` / `max` keys may each be present or absent. -/
inductive Item where
  | nondict
  | dict (grade : Option String) (min : Option JNum) (max : Option JNum)
  deriving Repr, DecidableEq

/-- A school row as the update services see it: its id and the parse of its
`grading_system` text column (`none` = empty column). -/
structure SchoolRow where
  id : Nat
  grading_system : Option (List Item)
  deriving Repr, DecidableEq

/-- `isinstance(rule, dict) and "grade" in rule and "min" in rule and "max" in rule`. -/
def ruleHasKeys : Item → Bool
  | Item.nondict => false
  | Item.dict g mn mx => g.isSome && mn.isSome && mx.isSome

/-- `isinstance(rule["min"], (int, float)) and isinstance(rule["max"], (int, float))
and rule["min"] <= rule["max"]`. -/
def ruleBoundsOk : Item → Bool
  | Item.dict _ (some (JNum.num a)) (some (JNum.num b)) => a ≤ b
  | _ => false

/-- The `for rule in grading_system` validation loop of
`update_school_grading_system`: first offending rule produces the error. -/
def validateScale : List Item → Option String
  | [] => none
  | it :: rest =>
    if !(ruleHasKeys it) then some "Each grading rule must be a dict with grade, min, and max"
    else if !(ruleBoundsOk it) then some "min and max must be numbers with min <= max"
    else validateScale rest

/-- The `(success, message, result)` triple of `update_school_grading_system`;
`result` carries `school_id` and the stored grading system. -/
structure GSUpdateResult where
  ok : Bool
  message : String
  payload : Option (Nat × List Item)
  deriving Repr, DecidableEq

/-- `update_school_grading_system(school_id, grading_system)` from
`src/v2/backend/services/school_services.py` (the `isinstance` checks on
`school_id` and on the list itself are absorbed by the types). -/
def update_school_grading_system (schools : List SchoolRow) (school_id : Nat)
    (grading_system : List Item) : GSUpdateResult × List SchoolRow :=
  match validateScale grading_system with
  | some msg => (⟨false, msg, none⟩, schools)
  | none =>
    match schools.find? (fun s => s.id == school_id) with
    | none => (⟨false, "School not found", none⟩, schools)
    | some _ =>
      (⟨true, "Grading system updated successfully", some (school_id, grading_system)⟩,
       schools.map (fun s =>
         if s.id == school_id then { s with grading_system := some grading_system } else s))

/-- Modelled from the spec: the `School.update_grading_system` model method
called by the legacy service is not in the source tree (`models/school.py`
has no such method); the spec describes a scale update as a full-scale swap
of the school's single current scale. -/
def school_update_grading_system_model (s : SchoolRow) (items : List Item) : SchoolRow :=
  { s with grading_system := some items }

/-- `update_grading_system(school_id, new_grading_system_json)` from
`src/v2/services/school_services.py`: looks the school up first, then checks
only that every element is a dict with the `grade` / `min` / `max` keys
(no numeric or `min <= max` check), then swaps the scale in and runs the
no-op `recalculate_grades` loop.  Returns `(school, error)`, the school kept
by id. -/
def update_grading_system (schools : List SchoolRow) (school_id : Nat)
    (new_gs : List Item) : (Option Nat × Option String) × List SchoolRow :=
  match schools.find? (fun s => s.id == school_id) with
  | none => ((none, some "School not found."), schools)
  | some sch =>
    if !(new_gs.all ruleHasKeys) then ((none, some "Invalid grading system format."), schools)
    else
      ((some sch.id, none),
       schools.map (fun s =>
         if s.id == school_id then school_update_grading_system_model s new_gs else s))

/-! ## Helper lemmas on the rule-matching loops -/

theorem letterLoop_first_match (r : Rule) (post : List Rule) (s : ℚ) :
    ∀ pre : List Rule, (∀ r' ∈ pre, ¬ (r'.min ≤ s ∧ s ≤ r'.max)) →
      r.min ≤ s → s ≤ r.max →
      letterLoop (pre ++ r :: post) s = some r.grade := by
  intro pre
  induction pre with
  | nil =>
    intro _ h1 h2
    simp [letterLoop, h1, h2]
  | cons a t ih =>
    intro h h1 h2
    have ha := h a (by simp)
    simp only [List.cons_append, letterLoop]
    rw [if_neg ha]
    exact ih (fun r' hr' => h r' (by simp [hr'])) h1 h2

theorem letterLoop_no_match (s : ℚ) :
    ∀ gs : List Rule, (∀ r' ∈ gs, ¬ (r'.min ≤ s ∧ s ≤ r'.max)) →
      letterLoop gs s = none := by
  intro gs
  induction gs with
  | nil => intro _; rfl
  | cons a t ih =>
    intro h
    simp only [letterLoop]
    rw [if_neg (h a (by simp))]
    exact ih (fun r' hr' => h r' (by simp [hr']))

theorem gradePointLoop_first_match (r : Rule) (post : List Rule) (letter : String) :
    ∀ pre : List Rule, (∀ r' ∈ pre, r'.grade ≠ letter) → r.grade = letter →
      gradePointLoop (pre ++ r :: post) letter = some (r.points.getD 0) := by
  intro pre
  induction pre with
  | nil =>
    intro _ h1
    simp [gradePointLoop, h1]
  | cons a t ih =>
    intro h h1
    have ha : (a.grade == letter) = false := by
      simpa using h a (by simp)
    simp only [List.cons_append, gradePointLoop, ha]
    simp only [Bool.false_eq_true, if_false]
    exact ih (fun r' hr' => h r' (by simp [hr'])) h1

theorem gradePointLoop_no_match (letter : String) :
    ∀ gs : List Rule, (∀ r' ∈ gs, r'.grade ≠ letter) →
      gradePointLoop gs letter = none := by
  intro gs
  induction gs with
  | nil => intro _; rfl
  | cons a t ih =>
    intro h
    have ha : (a.grade == letter) = false := by
      simpa using h a (by simp)
    simp only [gradePointLoop, ha]
    simp only [Bool.false_eq_true, if_false]
    exact ih (fun r' hr' => h r' (by simp [hr']))

/-! ## Claims C2, C3, C5 -/

/-- C2 (counterexample): with an empty (or unparseable, hence emptied)
grading system, the report engine's letter resolution returns no grade for a
score of 85, while resolving against the spec's system default scale would
return "A": the engine does not fall back to the default scale at evaluation
time. -/
theorem C2_empty_scale_counterexample :
    get_letter_grade [] (some 85) = none ∧
    get_letter_grade default_scale_spec (some 85) = some "A" := by
  with_unfolding_all decide

/-- C2 (amended): for every score evaluated while building a report for a
student whose school has an empty or unparseable `grading_system`, the engine
resolves no letter grade at all (`None`); the system default scale is only
installed at school registration, not consulted at report time. -/
theorem C2_empty_scale_no_letter (school : School) (s : ℚ)
    (h : school.grading_system = GSField.empty ∨ school.grading_system = GSField.malformed) :
    get_letter_grade (load_grading_system (some school)) (some s) = none := by
  rcases h with h | h <;> simp [load_grading_system, h, get_letter_grade]

theorem C2_empty_scale_no_letter_witness :
    get_letter_grade (load_grading_system (some { id := 1, grading_system := GSField.empty }))
      (some 85) = none :=
  C2_empty_scale_no_letter { id := 1, grading_system := GSField.empty } 85 (Or.inl rfl)

/-- C3 (counterexample): a rule present in the scale but lacking a `points`
value yields `0.0`, not the standard-table value for its letter (`3.0` for
"B"): `float(rule.get("points", 0.0))` defaults to `0.0` once a rule matched. -/
theorem C3_missing_points_counterexample :
    grade_point [{ grade := "B", min := 70, max := 79 }] "B" = 0 ∧
    standardPoints "B" = 3 ∧ (0 : ℚ) ≠ 3 := by
  decide

/-- C3 (amended): the grade-point lookup returns the matching rule's explicit
`points` value when present and `0.0` when the matching rule lacks one; the
fixed standard table is consulted only when no rule of the scale carries the
letter (in particular when the scale is empty), and an unknown label maps
to `0.0` there. -/
theorem C3_grade_point_lookup :
    (∀ (pre post : List Rule) (r : Rule) (letter : String),
        (∀ r' ∈ pre, r'.grade ≠ letter) → r.grade = letter →
        grade_point (pre ++ r :: post) letter = r.points.getD 0)
    ∧ (∀ (gs : List Rule) (letter : String),
        (∀ r' ∈ gs, r'.grade ≠ letter) →
        grade_point gs letter = standardPoints letter)
    ∧ (∀ letter : String, letter ∉ standardPointsTable.map Prod.fst →
        standardPoints letter = 0) := by
  refine ⟨?_, ?_, ?_⟩
  · intro pre post r letter h h1
    have hne : (pre ++ r :: post).isEmpty = false := by simp
    simp [grade_point, hne, gradePointLoop_first_match r post letter pre h h1]
  · intro gs letter h
    cases gs with
    | nil => rfl
    | cons a t =>
      simp [grade_point, gradePointLoop_no_match letter (a :: t) h]
  · intro letter h
    have hfind : standardPointsTable.find? (fun p => p.1 == letter) = none := by
      apply List.find?_eq_none.mpr
      intro p hp
      simp only [beq_iff_eq]
      intro hq
      exact h (hq ▸ List.mem_map_of_mem Prod.fst hp)
    simp [standardPoints, hfind]

theorem C3_grade_point_lookup_witness :
    grade_point [{ grade := "A", min := 80, max := 100, points := some 5 },
                 { grade := "B", min := 70, max := 79 }] "B" = 0
    ∧ grade_point [{ grade := "A", min := 80, max := 100, points := some 5 }] "B" = 3
    ∧ standardPoints "Q" = 0 := by
  refine ⟨?_, ?_, ?_⟩
  · exact C3_grade_point_lookup.1 [{ grade := "A", min := 80, max := 100, points := some 5 }]
      [] { grade := "B", min := 70, max := 79 } "B" (by decide) rfl
  · exact C3_grade_point_lookup.2.1 [{ grade := "A", min := 80, max := 100, points := some 5 }]
      "B" (by decide)
  · exact C3_grade_point_lookup.2.2 "Q" (by decide)

/-- C5 (confirmed): letter-grade resolution iterates the rules in their
configured order and returns the grade of the first rule whose inclusive
range contains the score (so a score equal to a rule's `min` or `max`
matches, and on overlap the earlier rule wins); when no rule's range
contains the score, no letter grade is returned. -/
theorem C5_letter_resolution (pre post gs : List Rule) (r : Rule) (s : ℚ) :
    ((∀ r' ∈ pre, ¬ (r'.min ≤ s ∧ s ≤ r'.max)) → r.min ≤ s → s ≤ r.max →
      get_letter_grade (pre ++ r :: post) (some s) = some r.grade)
    ∧ ((∀ r' ∈ gs, ¬ (r'.min ≤ s ∧ s ≤ r'.max)) →
      get_letter_grade gs (some s) = none) := by
  constructor
  · intro h h1 h2
    have hne : (pre ++ r :: post).isEmpty = false := by simp
    simp [get_letter_grade, hne, letterLoop_first_match r post s pre h h1 h2]
  · intro h
    cases gs with
    | nil => rfl
    | cons a t =>
      simp [get_letter_grade, letterLoop_no_match s (a :: t) h]

theorem C5_letter_resolution_witness :
    get_letter_grade
      [{ grade := "A", min := 80, max := 100 }, { grade := "B", min := 75, max := 100 }]
      (some 80) = some "A"
    ∧ get_letter_grade [{ grade := "A", min := 80, max := 100 }] (some 75) = none := by
  constructor
  · exact (C5_letter_resolution [] [{ grade := "B", min := 75, max := 100 }] []
      { grade := "A", min := 80, max := 100 } 80).1 (by decide) (by decide) (by decide)
  · exact (C5_letter_resolution [] [] [{ grade := "A", min := 80, max := 100 }]
      { grade := "A", min := 80, max := 100 } 75).2 (by decide)

/-! ## Claim C1 -/

/-- A concrete database: one student enrolled in one class of one school with a
configured scale, one 3-credit course graded 85. -/
def scaleC1 : List Rule :=
  [{ grade := "A", min := 80, max := 100, points := some 4 },
   { grade := "B", min := 70, max := 79 },
   { grade := "C", min := 60, max := 69 },
   { grade := "F", min := 0, max := 59 }]

def dbC1 : DB :=
  { users := [{ id := 1, username := "stu", full_name := "Stu Dent", email := "s@x.y",
                gender := "Gender.male", role := UserRole.student },
              { id := 2, username := "tea", full_name := "Tea Cher", email := "t@x.y",
                gender := "Gender.female", role := UserRole.staff }],
    schools := [{ id := 1, grading_system := GSField.parsed scaleC1 }],
    classes := [{ id := 1, name := "L100", description := "first year",
                  academic_year := "2024", school_id := 1 }],
    enrollments := [{ id := 1, student_id := 1, class_id := 1, enrolled_at := 10 }],
    courses := [{ id := 1, title := "Math", code := "M101", credit_hours := 3,
                  class_id := 1, teacher_id := 2 }],
    grades := [{ id := 1, student_id := 1, course_id := 1, value := 85,
                 created_at := 5, updated_at := 5, graded_by := 2 }],
    next_grade_id := 2 }

/-- C1 (code bug): the report the function returns carries only the
`student` / `academic_year` / `class` / `courses` keys — the dict holding
`gpa`, `accumulated_gpa` and `yearly_reports` is assembled and then
immediately overwritten by a second dict literal without them, even on a
request where the term GPA and cumulative GPA were computed (both 4 here). -/
theorem C1_report_missing_gpa_keys :
    reportKeys (generate_student_report dbC1 1 none) =
      ["student", "academic_year", "class", "courses"]
    ∧ "gpa" ∉ reportKeys (generate_student_report dbC1 1 none)
    ∧ "accumulated_gpa" ∉ reportKeys (generate_student_report dbC1 1 none)
    ∧ "yearly_reports" ∉ reportKeys (generate_student_report dbC1 1 none)
    ∧ ((buildYearReports dbC1 scaleC1 1).toOption.map
        (fun st => (selectReport st.1 none).2)) = some (some 4)
    ∧ ((buildYearReports dbC1 scaleC1 1).toOption.map
        (fun st => accumulatedGpa st.2.1 st.2.2)) = some (some 4) := by
  with_unfolding_all decide

/-! ## Claim C4 -/

def emptyDb : DB :=
  { users := [], schools := [], classes := [], enrollments := [], courses := [],
    grades := [], next_grade_id := 1 }

/-- C4 (counterexample): for a student id with no matching student, report
building raises a `ValueError` (modelled as `Except.error` carrying the
exception message) across the engine/caller boundary — there is no
`(success, message, payload)` result value. -/
theorem C4_raises_counterexample :
    generate_student_report emptyDb 1 none =
      Except.error "Student with id 1 not found." := by
  with_unfolding_all rfl

/-- C4 (amended): for every student id with no matching student, and for every
existing student with no enrollment, `generate_student_report` fails by
raising a `ValueError` with the corresponding message (modelled as
`Except.error`), rather than returning an explicit success-flag result
value. -/
theorem C4_notfound_raises :
    (∀ (db : DB) (sid : Nat) (ay : Option String),
        findUser db sid = none →
        generate_student_report db sid ay =
          Except.error ("Student with id " ++ toString sid ++ " not found."))
    ∧ (∀ (db : DB) (sid : Nat) (ay : Option String),
        (findUser db sid).isSome →
        latestEnrollment db sid ay = none →
        generate_student_report db sid ay =
          Except.error ("No enrollment found for student " ++ toString sid ++
            " in year '" ++ ayOrLatest ay ++ "'.")) := by
  constructor
  · intro db sid ay h
    simp only [generate_student_report, h]
    rfl
  · intro db sid ay h1 h2
    obtain ⟨u, hu⟩ := Option.isSome_iff_exists.mp h1
    simp only [generate_student_report, hu, h2]
    rfl

theorem C4_notfound_raises_witness :
    generate_student_report emptyDb 2 none = Except.error "Student with id 2 not found."
    ∧ generate_student_report { emptyDb with
        users := [{ id := 1, username := "stu", full_name := "Stu Dent", email := "s@x.y",
                    gender := "Gender.male", role := UserRole.student }] } 1 none =
        Except.error "No enrollment found for student 1 in year 'latest'." := by
  constructor
  · exact C4_notfound_raises.1 emptyDb 2 none (by decide)
  · exact C4_notfound_raises.2 { emptyDb with
      users := [{ id := 1, username := "stu", full_name := "Stu Dent", email := "s@x.y",
                  gender := "Gender.male", role := UserRole.student }] } 1 none
      (by decide) (by decide)

/-! ## Claim C6 -/

/-- C6 (confirmed): a course with no resolved letter grade contributes nothing
to the term's points and credits and to the accumulated totals (it is
excluded, not scored as zero); the selected term's GPA is
`round(points/credits, 2)` when the term's credits are positive and `None`
(distinct from 0.0) when they are zero. -/
theorem C6_ungraded_excluded_gpa_null :
    (∀ (gs : List Rule) (db : DB) (sid : Nat) (yr : YR) (ap : ℚ) (ac : Nat) (course : Course),
        get_letter_grade gs ((findGrade db sid course.id).map (fun g => g.value)) = none →
        ((processCourse gs db sid (yr, ap, ac) course).1.total_points = yr.total_points ∧
         (processCourse gs db sid (yr, ap, ac) course).1.total_credits = yr.total_credits ∧
         (processCourse gs db sid (yr, ap, ac) course).2.1 = ap ∧
         (processCourse gs db sid (yr, ap, ac) course).2.2 = ac))
    ∧ (∀ (yrs : List (String × YR)) (a : String) (y : YR),
        a ≠ "" → lookupYR yrs a = some y →
        (selectReport yrs (some a)).2 = gpaOf y)
    ∧ (∀ y : YR,
        (0 < y.total_credits →
          gpaOf y = some (round2 (y.total_points / (y.total_credits : ℚ)))) ∧
        (y.total_credits = 0 → gpaOf y = none)) := by
  refine ⟨?_, ?_, ?_⟩
  · intro gs db sid yr ap ac course h
    simp [processCourse, h, strTruthy]
  · intro yrs a y ha hy
    have ha' : (a != "") = true := by simpa using ha
    simp [selectReport, ha', hy]
  · intro y
    constructor
    · intro h
      simp [gpaOf, h]
    · intro h
      simp [gpaOf, h]

theorem C6_ungraded_excluded_gpa_null_witness :
    ((processCourse scaleC1 emptyDb 1 (⟨[], 2, 1⟩, 2, 1)
        { id := 9, title := "Art", code := "A1", credit_hours := 2,
          class_id := 1, teacher_id := 2 }).1.total_points = 2
      ∧ (processCourse scaleC1 emptyDb 1 (⟨[], 2, 1⟩, 2, 1)
        { id := 9, title := "Art", code := "A1", credit_hours := 2,
          class_id := 1, teacher_id := 2 }).1.total_credits = 1
      ∧ (processCourse scaleC1 emptyDb 1 (⟨[], 2, 1⟩, 2, 1)
        { id := 9, title := "Art", code := "A1", credit_hours := 2,
          class_id := 1, teacher_id := 2 }).2.1 = 2
      ∧ (processCourse scaleC1 emptyDb 1 (⟨[], 2, 1⟩, 2, 1)
        { id := 9, title := "Art", code := "A1", credit_hours := 2,
          class_id := 1, teacher_id := 2 }).2.2 = 1)
    ∧ (selectReport [("2024", ⟨[], 12, 3⟩)] (some "2024")).2 = gpaOf ⟨[], 12, 3⟩
    ∧ gpaOf ⟨[], 12, 3⟩ = some (round2 ((12 : ℚ) / ((3 : Nat) : ℚ)))
    ∧ gpaOf ⟨[], 0, 0⟩ = none := by
  refine ⟨?_, ?_, ?_, ?_⟩
  · exact C6_ungraded_excluded_gpa_null.1 scaleC1 emptyDb 1 ⟨[], 2, 1⟩ 2 1
      { id := 9, title := "Art", code := "A1", credit_hours := 2,
        class_id := 1, teacher_id := 2 } (by decide)
  · exact C6_ungraded_excluded_gpa_null.2.1 [("2024", ⟨[], 12, 3⟩)] "2024" ⟨[], 12, 3⟩
      (by decide) rfl
  · exact (C6_ungraded_excluded_gpa_null.2.2 ⟨[], 12, 3⟩).1 (by decide)
  · exact (C6_ungraded_excluded_gpa_null.2.2 ⟨[], 0, 0⟩).2 rfl

/-! ## Claim C7 -/

/-- The sum of `total_points` over the per-year map. -/
def sumPoints (yrs : List (String × YR)) : ℚ :=
  (yrs.map (fun p => p.2.total_points)).sum

/-- The sum of `total_credits` over the per-year map. -/
def sumCredits (yrs : List (String × YR)) : Nat :=
  (yrs.map (fun p => p.2.total_credits)).sum

theorem processCourse_delta (gs : List Rule) (db : DB) (sid : Nat)
    (yr : YR) (ap : ℚ) (ac : Nat) (course : Course) :
    (processCourse gs db sid (yr, ap, ac) course).1.total_points + ap =
      (processCourse gs db sid (yr, ap, ac) course).2.1 + yr.total_points
    ∧ (processCourse gs db sid (yr, ap, ac) course).1.total_credits + ac =
      (processCourse gs db sid (yr, ap, ac) course).2.2 + yr.total_credits := by
  simp only [processCourse]
  split
  · constructor
    · dsimp only
      ring
    · dsimp only
      omega
  · constructor
    · dsimp only
      ring
    · dsimp only
      omega

theorem foldCourses_delta (gs : List Rule) (db : DB) (sid : Nat) :
    ∀ (courses : List Course) (yr : YR) (ap : ℚ) (ac : Nat),
      ((courses.foldl (processCourse gs db sid) (yr, ap, ac)).1.total_points + ap =
        (courses.foldl (processCourse gs db sid) (yr, ap, ac)).2.1 + yr.total_points)
      ∧ ((courses.foldl (processCourse gs db sid) (yr, ap, ac)).1.total_credits + ac =
        (courses.foldl (processCourse gs db sid) (yr, ap, ac)).2.2 + yr.total_credits) := by
  intro courses
  induction courses with
  | nil =>
    intro yr ap ac
    constructor
    · dsimp only [List.foldl_nil]
      ring
    · dsimp only [List.foldl_nil]
      omega
  | cons c t ih =>
    intro yr ap ac
    rcases h1 : processCourse gs db sid (yr, ap, ac) c with ⟨yr1, ap1, ac1⟩
    have hd := processCourse_delta gs db sid yr ap ac c
    rw [h1] at hd
    dsimp only at hd
    have ht := ih yr1 ap1 ac1
    simp only [List.foldl_cons, h1]
    constructor
    · linarith [ht.1, hd.1]
    · have h2 := ht.2
      have h3 := hd.2
      omega

theorem lookupYR_append_self (k : String) (v : YR) :
    ∀ yrs : List (String × YR), lookupYR yrs k = none →
      lookupYR (yrs ++ [(k, v)]) k = some v := by
  intro yrs h
  induction yrs with
  | nil => simp [lookupYR, List.find?]
  | cons p t ih =>
    by_cases hk : p.1 == k
    · simp [lookupYR, List.find?, hk] at h
    · simp only [lookupYR, List.cons_append, List.find?, hk] at *
      exact ih h

theorem sums_setYR (k : String) (v w : YR) :
    ∀ yrs : List (String × YR), lookupYR yrs k = some w →
      (sumPoints (setYR k v yrs) + w.total_points = sumPoints yrs + v.total_points ∧
       sumCredits (setYR k v yrs) + w.total_credits = sumCredits yrs + v.total_credits) := by
  intro yrs
  induction yrs with
  | nil => intro h; simp [lookupYR] at h
  | cons p t ih =>
    intro h
    by_cases hk : p.1 == k
    · have hw : p.2 = w := by
        simp [lookupYR, List.find?, hk] at h
        exact h
      subst hw
      simp only [setYR, hk, if_true, sumPoints, sumCredits, List.map_cons, List.sum_cons]
      constructor
      · ring
      · omega
    · have h' : lookupYR t k = some w := by
        simpa [lookupYR, List.find?, hk] using h
      have ht := ih h'
      simp only [setYR, hk, Bool.false_eq_true, if_false, sumPoints, sumCredits,
        List.map_cons, List.sum_cons] at *
      constructor
      · linarith [ht.1]
      · omega

theorem sums_append_zero (k : String) (yrs : List (String × YR)) :
    sumPoints (yrs ++ [(k, ⟨[], 0, 0⟩)]) = sumPoints yrs ∧
    sumCredits (yrs ++ [(k, ⟨[], 0, 0⟩)]) = sumCredits yrs := by
  simp [sumPoints, sumCredits]

theorem processEnrollment_inv (db : DB) (gs : List Rule) (sid : Nat)
    (st st' : List (String × YR) × ℚ × Nat) (e : Enrollment)
    (h : processEnrollment db gs sid st e = Except.ok st')
    (hP : st.2.1 = sumPoints st.1 ∧ st.2.2 = sumCredits st.1) :
    st'.2.1 = sumPoints st'.1 ∧ st'.2.2 = sumCredits st'.1 := by
  rcases st with ⟨yrs, ap, ac⟩
  obtain ⟨hP1, hP2⟩ := hP
  dsimp only at hP1 hP2
  simp only [processEnrollment] at h
  cases hc : findClass db e.class_id with
  | none => rw [hc] at h; exact absurd h (by simp)
  | some cls =>
    rw [hc] at h
    dsimp only at h
    set yrKey := cls.academic_year with hkey
    by_cases hl : (lookupYR yrs yrKey).isSome
    · obtain ⟨cur, hcur⟩ := Option.isSome_iff_exists.mp hl
      rw [if_pos] at h
      swap
      · exact hl
      rcases hr : (classCourses db e.class_id).foldl (processCourse gs db sid)
          ((lookupYR yrs yrKey).getD ⟨[], 0, 0⟩, ap, ac) with ⟨yr', ap', ac'⟩
      rw [hr] at h
      have hgd : (lookupYR yrs yrKey).getD ⟨[], 0, 0⟩ = cur := by rw [hcur]; rfl
      have hfold := foldCourses_delta gs db sid (classCourses db e.class_id)
        ((lookupYR yrs yrKey).getD ⟨[], 0, 0⟩) ap ac
      rw [hr] at hfold
      rw [hgd] at hfold
      dsimp only at hfold
      have hset := sums_setYR yrKey yr' cur yrs hcur
      injection h with h
      subst h
      dsimp only
      constructor
      · linarith [hfold.1, hset.1, hP1]
      · have h1 := hfold.2
        have h2 := hset.2
        omega
    · rw [if_neg hl] at h
      have hnone : lookupYR yrs yrKey = none := by
        cases hx : lookupYR yrs yrKey with
        | none => rfl
        | some v => rw [hx] at hl; simp at hl
      have hlook := lookupYR_append_self yrKey ⟨[], 0, 0⟩ yrs hnone
      rcases hr : (classCourses db e.class_id).foldl (processCourse gs db sid)
          ((lookupYR (yrs ++ [(yrKey, ⟨[], 0, 0⟩)]) yrKey).getD ⟨[], 0, 0⟩, ap, ac)
        with ⟨yr', ap', ac'⟩
      rw [hr] at h
      have hgd : (lookupYR (yrs ++ [(yrKey, ⟨[], 0, 0⟩)]) yrKey).getD ⟨[], 0, 0⟩ =
          (⟨[], 0, 0⟩ : YR) := by rw [hlook]; rfl
      have hfold := foldCourses_delta gs db sid (classCourses db e.class_id)
        ((lookupYR (yrs ++ [(yrKey, ⟨[], 0, 0⟩)]) yrKey).getD ⟨[], 0, 0⟩) ap ac
      rw [hr] at hfold
      rw [hgd] at hfold
      dsimp only at hfold
      have hset := sums_setYR yrKey yr' ⟨[], 0, 0⟩ (yrs ++ [(yrKey, ⟨[], 0, 0⟩)]) hlook
      have hz := sums_append_zero yrKey yrs
      injection h with h
      subst h
      dsimp only
      constructor
      · have h1 := hfold.1
        have h2 := hset.1
        have h4 := hz.1
        dsimp only at h2
        linarith
      · have h1 := hfold.2
        have h2 := hset.2
        have h4 := hz.2
        dsimp only at h2
        omega

theorem foldlM_except_inv {σ α : Type} (f : σ → α → Except String σ) (P : σ → Prop)
    (hf : ∀ s a s', f s a = Except.ok s' → P s → P s') :
    ∀ (l : List α) (s s' : σ), l.foldlM f s = Except.ok s' → P s → P s' := by
  intro l
  induction l with
  | nil =>
    intro s s' h hP
    simp only [List.foldlM_nil] at h
    cases h
    exact hP
  | cons a t ih =>
    intro s s' h hP
    rw [List.foldlM_cons] at h
    cases hfa : f s a with
    | error msg =>
      rw [hfa] at h
      have hred : (Except.error msg >>= fun s2 => t.foldlM f s2 : Except String σ) =
          Except.error msg := rfl
      rw [hred] at h
      cases h
    | ok s1 =>
      rw [hfa] at h
      have hred : (Except.ok s1 >>= fun s2 => t.foldlM f s2 : Except String σ) =
          t.foldlM f s1 := rfl
      rw [hred] at h
      exact ih s1 s' h (hf s a s1 hfa hP)

/-- C7 (confirmed): the accumulated totals returned by the per-year loop equal
the sums of the per-term points and credits over the whole per-term map, so
the cumulative GPA is `round(sum of all term points / sum of all term
credits, 2)` (and `None` exactly when the total credits are zero) — it is the
credit-weighted union of all terms, not an average of per-term GPAs. -/
theorem C7_cumulative_gpa (db : DB) (gs : List Rule) (sid : Nat)
    (st : List (String × YR) × ℚ × Nat)
    (h : buildYearReports db gs sid = Except.ok st) :
    st.2.1 = sumPoints st.1 ∧ st.2.2 = sumCredits st.1 ∧
    accumulatedGpa st.2.1 st.2.2 =
      (if 0 < sumCredits st.1 then some (round2 (sumPoints st.1 / (sumCredits st.1 : ℚ)))
       else none) := by
  have hinv := foldlM_except_inv (processEnrollment db gs sid)
    (fun s => s.2.1 = sumPoints s.1 ∧ s.2.2 = sumCredits s.1)
    (fun s a s' hf hP => processEnrollment_inv db gs sid s s' a hf hP)
    (all_enrollments db sid) ([], 0, 0) st h
    (by constructor <;> rfl)
  refine ⟨hinv.1, hinv.2, ?_⟩
  rw [accumulatedGpa, hinv.1, hinv.2]

def dbC7 : DB :=
  { dbC1 with
    classes := dbC1.classes ++
      [{ id := 2, name := "L200", description := "second year",
         academic_year := "2025", school_id := 1 }],
    enrollments := dbC1.enrollments ++
      [{ id := 2, student_id := 1, class_id := 2, enrolled_at := 20 }],
    courses := dbC1.courses ++
      [{ id := 2, title := "Phys", code := "P201", credit_hours := 2,
         class_id := 2, teacher_id := 2 }],
    grades := dbC1.grades ++
      [{ id := 2, student_id := 1, course_id := 2, value := 72,
         created_at := 6, updated_at := 6, graded_by := 2 }] }

def stC7 : List (String × YR) × ℚ × Nat :=
  (buildYearReports dbC7 scaleC1 1).toOption.getD ([], 0, 0)

theorem C7_cumulative_gpa_witness :
    stC7.2.1 = sumPoints stC7.1 ∧ stC7.2.2 = sumCredits stC7.1 ∧
    accumulatedGpa stC7.2.1 stC7.2.2 =
      (if 0 < sumCredits stC7.1 then some (round2 (sumPoints stC7.1 / (sumCredits stC7.1 : ℚ)))
       else none) :=
  C7_cumulative_gpa dbC7 scaleC1 1 stC7 (by with_unfolding_all rfl)

/-! ## Claims C8 and C10 -/

/-- Two grade rows are for different (student, course) pairs. -/
def pairDistinct (a b : Grade) : Prop :=
  ¬ (a.student_id = b.student_id ∧ a.course_id = b.course_id)

instance (a b : Grade) : Decidable (pairDistinct a b) := by
  unfold pairDistinct
  infer_instance

theorem mem_id_unique (l : List Grade) (hI : l.Pairwise (fun a b => a.id ≠ b.id)) :
    ∀ g x, g ∈ l → x ∈ l → x.id = g.id → x = g := by
  induction l with
  | nil => intro g x hg; cases hg
  | cons a t ih =>
    intro g x hg hx hid
    obtain ⟨ha, ht⟩ := List.pairwise_cons.mp hI
    rcases List.mem_cons.mp hg with rfl | hg' <;> rcases List.mem_cons.mp hx with rfl | hx'
    · rfl
    · exact absurd hid (Ne.symm (ha x hx'))
    · exact absurd hid (ha g hg')
    · exact ih ht g x hg' hx' hid

/-- C8 (confirmed): `upload_grade` preserves the at-most-one-record-per-
(student, course) invariant, and a successful second submission rewrites the
existing row in place — same row id, `created_at` kept, `value` and
`updated_at` set — without changing the number of rows. -/
theorem C8_upsert_unique (db : DB) (sid cid : Nat) (v : ℚ) (gb now : Nat)
    (hU : db.grades.Pairwise pairDistinct)
    (hI : db.grades.Pairwise (fun a b => a.id ≠ b.id)) :
    (upload_grade db sid cid v gb now).2.grades.Pairwise pairDistinct
    ∧ (∀ g : Grade,
        (upload_grade db sid cid v gb now).1.ok = true →
        findGrade db sid cid = some g →
        ((upload_grade db sid cid v gb now).2.grades =
          db.grades.map (fun x =>
            if x.id == g.id then { g with value := v, updated_at := now } else x)
         ∧ (upload_grade db sid cid v gb now).2.grades.length = db.grades.length)) := by
  cases h1 : db.users.find? (fun u => u.id == gb && u.role == UserRole.staff) with
  | none =>
    simp only [upload_grade, h1]
    exact ⟨hU, fun g hok => by simp at hok⟩
  | some teacher =>
    cases h2 : db.users.find? (fun u => u.id == sid && u.role == UserRole.student) with
    | none =>
      simp only [upload_grade, h1, h2]
      exact ⟨hU, fun g hok => by simp at hok⟩
    | some student =>
      cases h3 : db.courses.find? (fun c => c.id == cid && c.teacher_id == gb) with
      | none =>
        simp only [upload_grade, h1, h2, h3]
        exact ⟨hU, fun g hok => by simp at hok⟩
      | some course =>
        cases h4 : findGrade db sid cid with
        | some g0 =>
          simp only [upload_grade, h1, h2, h3, h4]
          have hmem := List.mem_of_find?_eq_some h4
          have hpair : ∀ x ∈ db.grades,
              ((if x.id == g0.id then { g0 with value := v, updated_at := now } else x) :
                Grade).student_id = x.student_id ∧
              ((if x.id == g0.id then { g0 with value := v, updated_at := now } else x) :
                Grade).course_id = x.course_id := by
            intro x hx
            by_cases hxid : (x.id == g0.id) = true
            · have hxg : x = g0 :=
                mem_id_unique db.grades hI g0 x hmem hx (by simpa using hxid)
              subst hxg
              simp [hxid]
            · simp [hxid]
          constructor
          · refine List.pairwise_map.mpr (hU.imp_of_mem ?_)
            intro a b haM hbM hab
            have ha2 := hpair a haM
            have hb2 := hpair b hbM
            unfold pairDistinct at *
            rw [ha2.1, ha2.2, hb2.1, hb2.2]
            exact hab
          · intro g hok hg
            have hgg : g0 = g := Option.some.inj hg
            subst hgg
            exact ⟨rfl, by simp⟩
        | none =>
          simp only [upload_grade, h1, h2, h3, h4]
          constructor
          · refine List.pairwise_append.mpr ⟨hU, List.pairwise_singleton _ _, ?_⟩
            intro a haM b hbM
            have hb : b = (⟨db.next_grade_id, sid, cid, v, now, now, gb⟩ : Grade) := by
              simpa using hbM
            subst hb
            have hnot := List.find?_eq_none.mp h4 a haM
            unfold pairDistinct
            intro hcontra
            apply hnot
            simp only [Bool.and_eq_true, beq_iff_eq]
            exact ⟨hcontra.1, hcontra.2⟩
          · intro g hok hg
            cases hg

theorem C8_upsert_unique_witness :
    (upload_grade dbC1 1 1 92 2 7).2.grades.Pairwise pairDistinct
    ∧ ((upload_grade dbC1 1 1 92 2 7).2.grades =
        dbC1.grades.map (fun x =>
          if x.id == (1 : Nat) then
            { id := 1, student_id := 1, course_id := 1, value := 92,
              created_at := 5, updated_at := 7, graded_by := 2 }
          else x)
       ∧ (upload_grade dbC1 1 1 92 2 7).2.grades.length = dbC1.grades.length) := by
  have h := C8_upsert_unique dbC1 1 1 92 2 7 (by decide) (by decide)
  exact ⟨h.1, h.2
    { id := 1, student_id := 1, course_id := 1, value := 85,
      created_at := 5, updated_at := 5, graded_by := 2 }
    (by with_unfolding_all decide) (by with_unfolding_all decide)⟩

/-- C10 (confirmed): a successful re-grade through `upload_grade` rewrites only
`value` (and the ORM-maintained `updated_at`) of the existing row: the
returned payload row keeps the original `graded_by`, `created_at`,
`student_id`, `course_id` and id, and every other grade row survives
untouched. -/
theorem C10_regrade_frame (db : DB) (sid cid : Nat) (v : ℚ) (gb now : Nat) (g : Grade)
    (hg : findGrade db sid cid = some g)
    (hok : (upload_grade db sid cid v gb now).1.ok = true) :
    (upload_grade db sid cid v gb now).1.payload =
      some { g with value := v, updated_at := now }
    ∧ (∀ x ∈ db.grades, x.id ≠ g.id → x ∈ (upload_grade db sid cid v gb now).2.grades)
    ∧ ({ g with value := v, updated_at := now } : Grade).graded_by = g.graded_by
    ∧ ({ g with value := v, updated_at := now } : Grade).created_at = g.created_at
    ∧ ({ g with value := v, updated_at := now } : Grade).id = g.id
    ∧ ({ g with value := v, updated_at := now } : Grade).student_id = g.student_id
    ∧ ({ g with value := v, updated_at := now } : Grade).course_id = g.course_id := by
  cases h1 : db.users.find? (fun u => u.id == gb && u.role == UserRole.staff) with
  | none => rw [upload_grade, h1] at hok; simp at hok
  | some teacher =>
    cases h2 : db.users.find? (fun u => u.id == sid && u.role == UserRole.student) with
    | none => rw [upload_grade, h1, h2] at hok; simp at hok
    | some student =>
      cases h3 : db.courses.find? (fun c => c.id == cid && c.teacher_id == gb) with
      | none => rw [upload_grade, h1, h2, h3] at hok; simp at hok
      | some course =>
        simp only [upload_grade, h1, h2, h3, hg]
        refine ⟨trivial, ?_, trivial, trivial, trivial, trivial, trivial⟩
        intro x hx hxid
        refine List.mem_map.mpr ⟨x, hx, ?_⟩
        have hxid2 : (x.id == g.id) = false := by simpa using hxid
        simp [hxid2]

/-! ## Claim C9 -/

def schoolsC9 : List SchoolRow :=
  [{ id := 1,
     grading_system := some [Item.dict (some "A") (some (JNum.num 0)) (some (JNum.num 100))] }]

def badScaleC9 : List Item :=
  [Item.dict (some "A") (some (JNum.num 90)) (some (JNum.num 10))]

/-- C9 (counterexample): the legacy update path `update_grading_system`
accepts a scale whose only rule has `min = 90 > 10 = max` — it reports
success and swaps the invalid scale in, replacing the previous one, although
that rule fails the backend bounds check. -/
theorem C9_legacy_accepts_min_gt_max :
    (update_grading_system schoolsC9 1 badScaleC9).1 = (some 1, none)
    ∧ (update_grading_system schoolsC9 1 badScaleC9).2 =
        [{ id := 1, grading_system := some badScaleC9 }]
    ∧ ruleBoundsOk (Item.dict (some "A") (some (JNum.num 90)) (some (JNum.num 10))) = false := by
  with_unfolding_all decide

/-- C9 (amended): the backend service `update_school_grading_system` behaves
as claimed — any rule that is not a record with grade/min/max, or with
non-numeric or inverted bounds, rejects the whole update with a validation
error before the store is touched, and a fully valid scale replaces the
school's scale in full — while the legacy `update_grading_system` path checks
only that every rule is a record with the three keys present, rejecting
key-structure violations but accepting non-numeric or `min > max` bounds. -/
theorem C9_scale_update_validation (schools : List SchoolRow) (sid : Nat) (gs : List Item) :
    (∀ msg, validateScale gs = some msg →
        update_school_grading_system schools sid gs = (⟨false, msg, none⟩, schools))
    ∧ (validateScale gs = none → (schools.find? (fun s => s.id == sid)).isSome →
        update_school_grading_system schools sid gs =
          (⟨true, "Grading system updated successfully", some (sid, gs)⟩,
           schools.map (fun s =>
             if s.id == sid then { s with grading_system := some gs } else s)))
    ∧ (∀ it ∈ gs, (ruleHasKeys it = false ∨ ruleBoundsOk it = false) →
        validateScale gs ≠ none)
    ∧ (∀ sch, schools.find? (fun s => s.id == sid) = some sch →
        gs.all ruleHasKeys = false →
        update_grading_system schools sid gs =
          ((none, some "Invalid grading system format."), schools)) := by
  refine ⟨?_, ?_, ?_, ?_⟩
  · intro msg h
    simp [update_school_grading_system, h]
  · intro h hs
    obtain ⟨sch, hsch⟩ := Option.isSome_iff_exists.mp hs
    simp [update_school_grading_system, h, hsch]
  · intro it hit hbad
    induction gs with
    | nil => cases hit
    | cons a t ih =>
      rcases List.mem_cons.mp hit with rfl | hit'
      · rcases hbad with hb | hb
        · simp [validateScale, hb]
        · by_cases hk : ruleHasKeys it
          · simp [validateScale, hk, hb]
          · simp [validateScale, hk]
      · by_cases hk : ruleHasKeys a
        · by_cases hb2 : ruleBoundsOk a
          · simpa [validateScale, hk, hb2] using ih hit'
          · simp [validateScale, hk, hb2]
        · simp [validateScale, hk]
  · intro sch hsch hall
    simp [update_grading_system, hsch, hall]

theorem C9_scale_update_validation_witness :
    update_school_grading_system schoolsC9 1 badScaleC9 =
      (⟨false, "min and max must be numbers with min <= max", none⟩, schoolsC9)
    ∧ update_school_grading_system schoolsC9 1
        [Item.dict (some "B") (some (JNum.num 70)) (some (JNum.num 79))] =
      (⟨true, "Grading system updated successfully",
          some (1, [Item.dict (some "B") (some (JNum.num 70)) (some (JNum.num 79))])⟩,
       schoolsC9.map (fun s =>
         if s.id == 1 then
           { s with grading_system :=
               (some [Item.dict (some "B") (some (JNum.num 70)) (some (JNum.num 79))]) }
         else s))
    ∧ validateScale badScaleC9 ≠ none
    ∧ update_grading_system schoolsC9 1 [Item.nondict] =
        ((none, some "Invalid grading system format."), schoolsC9) := by
  refine ⟨?_, ?_, ?_, ?_⟩
  · exact (C9_scale_update_validation schoolsC9 1 badScaleC9).1
      "min and max must be numbers with min <= max" (by with_unfolding_all decide)
  · exact (C9_scale_update_validation schoolsC9 1
      [Item.dict (some "B") (some (JNum.num 70)) (some (JNum.num 79))]).2.1
      (by with_unfolding_all decide) (by decide)
  · exact (C9_scale_update_validation schoolsC9 1 badScaleC9).2.2.1
      (Item.dict (some "A") (some (JNum.num 90)) (some (JNum.num 10)))
      (by decide) (Or.inr (by with_unfolding_all decide))
  · exact (C9_scale_update_validation schoolsC9 1 [Item.nondict]).2.2.2
      { id := 1,
        grading_system := some [Item.dict (some "A") (some (JNum.num 0)) (some (JNum.num 100))] }
      (by decide) (by decide)

theorem C10_regrade_frame_witness :
    (upload_grade dbC1 1 1 92 2 7).1.payload =
      some { id := 1, student_id := 1, course_id := 1, value := 92,
             created_at := 5, updated_at := 7, graded_by := 2 }
    ∧ (∀ x ∈ dbC1.grades, x.id ≠ 1 → x ∈ (upload_grade dbC1 1 1 92 2 7).2.grades) := by
  have h := C10_regrade_frame dbC1 1 1 92 2 7
    { id := 1, student_id := 1, course_id := 1, value := 85,
      created_at := 5, updated_at := 5, graded_by := 2 }
    (by with_unfolding_all rfl) (by with_unfolding_all decide)
  exact ⟨h.1, h.2.1⟩

end Siams
